import Mathlib

/-!
Verification development for the pylgrim single-point GNSS least-squares
solver.  The repository has two implementations of the solver:

* `proto/least_squares.py` — the reference module (namespace `LS` below):
  elevation mask 8°, convergence threshold 1 m, tropospheric correction,
  pseudoranges taken from the C1 observable;
* `proto/rover_position.py` — the earlier prototype (namespace `RP` below):
  elevation mask 10°, convergence threshold 10 m, no tropospheric term,
  iono-free pseudoranges, and a one-shot recursive retry when no a-priori
  position is supplied.

Scalars are modelled as `ℚ` (the Python code computes with floats; all the
properties verified here are exact structural/algebraic facts that do not
depend on rounding).  Times (`obs.date`, `t_oe`, clock offsets) are`ℚ`
seconds, so Python's `datetime` arithmetic `now + dt` becomes rational
addition.  Everything the repository imports from outside the two source
files (numpy's `sqrt` and matrix inverse, `ecef_to_lat_lon_alt`, `sat_elev`,
`tropmodel`, and the per-record ephemeris evaluators `eph2pos`,
`time_offset`, `utc2gps`) is an external collaborator and is therefore a
parameter of the model: an `Externals` record and function-valued fields of
`NavRec`.  Python exceptions (e.g. `min()` of an empty sequence) are
modelled by `Option`, `none` meaning the call fails.
-/

/-- Python truthiness of an observation cell: `obs_data['C1'][i]` is truthy
iff the cell is present (not `None`) and non-zero. -/
def pyTrue : Option ℚ → Prop
  | none => False
  | some v => v ≠ 0

instance (v : Option ℚ) : Decidable (pyTrue v) := by
  cases v with
  | none => exact isFalse (fun h => h)
  | some q => exact inferInstanceAs (Decidable (q ≠ 0))

/-- Value of an observation cell when it is read as a number; the solver only
reads cells that passed the `pyTrue` filter, so the default is never hit. -/
def pyVal : Option ℚ → ℚ := fun v => v.getD 0

/-- Dot product of two rational vectors (numpy row-by-column product). -/
def dotL (a b : List ℚ) : ℚ := (List.zipWith (fun x y => x * y) a b).sum

/-- Transpose of a rectangular matrix given as a list of rows
(numpy `.transpose()`). -/
def matT (A : List (List ℚ)) : List (List ℚ) :=
  (List.range (A.headD []).length).map (fun j => A.map (fun row => row.getD j 0))

/-- Matrix product (numpy `*` on `np.matrix`). -/
def matMulL (A B : List (List ℚ)) : List (List ℚ) :=
  A.map (fun ra => (matT B).map (fun cb => dotL ra cb))

/-- Matrix–(column-)vector product; the Python code keeps `l` as an N×1
`np.matrix`, modelled here as a plain vector. -/
def matVecL (A : List (List ℚ)) (v : List ℚ) : List ℚ := A.map (fun ra => dotL ra v)

/-- One broadcast-ephemeris record for one satellite (`NavGPS` object).
`t_oe` is the reference time used by `least_squares.py`'s selector, `date`
and `utc2gps` are used by `rover_position.py`'s selector, and `eph2pos` /
`time_offset` are the external ephemeris evaluators (position at a time,
clock offset at a time). -/
structure NavRec where
  t_oe : ℚ
  date : ℚ
  utc2gps : ℚ → ℚ
  eph2pos : ℚ → List ℚ
  time_offset : ℚ → ℚ

instance : Inhabited NavRec :=
  ⟨{ t_oe := 0, date := 0, utc2gps := fun t => t, eph2pos := fun _ => [],
     time_offset := fun _ => 0 }⟩

/-- One epoch of observations.  `C1 r` and `P2 r` model
`obs.obs_data['C1'][obs.prn(r)]` etc. (`rover_position.py` indexes the same
table by the position of `r` in `PRN_number`, which is the same lookup);
`ionofree_pseudorange` is the external combination used by
`rover_position.py` only. -/
structure Obs where
  date : ℚ
  PRN_number : List String
  C1 : String → Option ℚ
  P2 : String → Option ℚ
  ionofree_pseudorange : String → ℚ

/-- The collaborators imported from outside the two solver source files:
numpy's `sqrt` and 4×4 matrix inverse (`np.matrix(..).I`), the
ECEF→geodetic transform, the elevation-angle computation (last argument is
the `deg` flag), and the tropospheric delay model
`tropmodel(lla, elev, vmf_coeffs)`. -/
structure Externals where
  sqrt : ℚ → ℚ
  inv4 : List (List ℚ) → List (List ℚ)
  ecef_to_lat_lon_alt : List ℚ → Bool → List ℚ
  sat_elev : List ℚ → List ℚ → Bool → ℚ
  tropmodel : List ℚ → ℚ → List ℚ → ℚ

/-- The ephemeris selector of `least_squares.py` (lines 36–45):
`diff_array = [abs(n.t_oe - t) for n in nav_array]`,
`return nav_array[diff_array.index(min(diff_array))]`.
Python's `min` of an empty list raises `ValueError`; that failure is the
`none` case.  `min(diff)` is the least value and `.index` returns the first
position holding it, so ties go to the first-encountered record. -/
def nav_nearest_in_time (t : ℚ) (nav_array : List NavRec) : Option NavRec :=
  let diff_array := nav_array.map (fun n => |n.t_oe - t|)
  match diff_array.min? with
  | none => none
  | some m => some (nav_array.getD (diff_array.indexOf m) default)

/-- The ephemeris selector of `rover_position.py` (lines 27–36), which
measures the time difference as
`abs((n.date - n.utc2gps(t)).total_seconds())`. -/
def RP.nav_nearest_in_time (t : ℚ) (nav_array : List NavRec) : Option NavRec :=
  let diff_array := nav_array.map (fun n => |n.date - n.utc2gps t|)
  match diff_array.min? with
  | none => none
  | some m => some (nav_array.getD (diff_array.indexOf m) default)

/-- One step of the satellite-selection loop shared by both solver files
(`least_squares.py` lines 71–82, `rover_position.py` lines 61–70), for a
single PRN `r`.  Result:
`none` — the ephemeris selector raised (empty candidate list);
`some none` — the satellite is skipped (missing C1/P2, wrong constellation,
or below the elevation mask);
`some (some (r, nnt))` — the satellite joins the working set.
The two files differ only in the selector `sel` and the mask constant. -/
def satStep (sel : ℚ → List NavRec → Option NavRec) (ext : Externals)
    (now elev_mask : ℚ) (init_pos : List ℚ) (obs : Obs)
    (navs : String → List NavRec) (r : String) :
    Option (Option (String × NavRec)) :=
  if pyTrue (obs.C1 r) ∧ pyTrue (obs.P2 r) ∧ 'G' ∈ r.toList then
    match sel now (navs r) with
    | none => none
    | some nnt =>
      if init_pos ≠ [] then
        if ext.sat_elev init_pos (nnt.eph2pos now) true < elev_mask then
          some none
        else some (some (r, nnt))
      else some (some (r, nnt))
  else some none

/-- The full satellite-selection loop: folds `satStep` over `PRN_number` in
order, keeping the insertion order of admitted satellites, and propagating
a selector failure. -/
def collectSats (sel : ℚ → List NavRec → Option NavRec) (ext : Externals)
    (now elev_mask : ℚ) (init_pos : List ℚ) (obs : Obs)
    (navs : String → List NavRec) : List String → Option (List (String × NavRec))
  | [] => some []
  | r :: rest =>
    match satStep sel ext now elev_mask init_pos obs navs r with
    | none => none
    | some none => collectSats sel ext now elev_mask init_pos obs navs rest
    | some (some e) =>
      (collectSats sel ext now elev_mask init_pos obs navs rest).map (fun L => e :: L)

/-- Speed-of-light constant of `least_squares.py` line 66
(`c = 299792428  # speed of light`). -/
def LS.c : ℚ := 299792428

/-- Elevation mask of `least_squares.py` line 67. -/
def LS.elev_mask : ℚ := 8

/-- Speed-of-light constant of `rover_position.py` line 55. -/
def RP.c : ℚ := 299792428

/-- Elevation mask of `rover_position.py` line 56. -/
def RP.elev_mask : ℚ := 10

/-- Initial point `[1e-10, 1e-10, 1e-10]` used when no a-priori position is
supplied. -/
def qtiny : ℚ := 1 / 10 ^ 10

/-- Geometric ranges of one iteration
(`least_squares.py` line 109, `rover_position.py` line 95):
`rho[j] = sqrt(sum((x - xyzt[i])**2 for i, x in enumerate(XYZs[j])))`
for `j in range(len(sats))`; `N` is `len(sats)`. -/
def rho_vec (ext : Externals) (N : Nat) (xyzt : List ℚ)
    (XYZs : List (List ℚ)) : List ℚ :=
  (List.range N).map (fun j =>
    ext.sqrt ((List.zipWith (fun x y => (x - y) ^ 2) (XYZs.getD j []) xyzt).sum))

/-- Design matrix of one iteration
(`least_squares.py` line 119, `rover_position.py` line 97):
row `i` is `append((xyzt[:3] - XYZs[i]) / rho[i], [c])`. -/
def A_mat (c : ℚ) (N : Nat) (xyzt : List ℚ) (XYZs : List (List ℚ))
    (rho : List ℚ) : List (List ℚ) :=
  (List.range N).map (fun i =>
    (List.zipWith (fun a b => a - b) (xyzt.take 3) (XYZs.getD i [])).map
      (fun y => y / rho.getD i 0) ++ [c])

/-- Normal-equation solve of both files:
`x_hat = ((A.T * A).I * A.T * l).flatten()`, with numpy's matrix inverse as
the external `inv4`. -/
def x_hat_of (ext : Externals) (A : List (List ℚ)) (l : List ℚ) : List ℚ :=
  matVecL (matMulL (ext.inv4 (matMulL (matT A) A)) (matT A)) l

/-- Residual vector of `least_squares.py` (lines 115–117):
`l[i] = P[i] - rho[i] + c * sats[i].time_offset(now + xyzt[3])
        - tropmodel(lla, sat_elev(xyzt[:3], XYZs[i], deg=False), vmf_coeffs)`
with `lla = ecef_to_lat_lon_alt(xyzt, deg=False)` (line 107). -/
def LS.l_vec (ext : Externals) (c now : ℚ) (sats : List (String × NavRec))
    (P rho vmf_coeffs xyzt : List ℚ) (XYZs : List (List ℚ)) : List ℚ :=
  (List.range sats.length).map (fun i =>
    P.getD i 0 - rho.getD i 0
      + c * ((sats.getD i default).2.time_offset (now + xyzt.getD 3 0))
      - ext.tropmodel (ext.ecef_to_lat_lon_alt xyzt false)
          (ext.sat_elev (xyzt.take 3) (XYZs.getD i []) false) vmf_coeffs)

/-- Solved correction of one `least_squares.py` iteration, before the fourth
component is converted to time units (lines 109–123). -/
def LS.x_hat_raw (ext : Externals) (now : ℚ) (sats : List (String × NavRec))
    (P vmf_coeffs xyzt : List ℚ) (XYZs : List (List ℚ)) : List ℚ :=
  let rho := rho_vec ext sats.length xyzt XYZs
  x_hat_of ext (A_mat LS.c sats.length xyzt XYZs rho)
    (LS.l_vec ext LS.c now sats P rho vmf_coeffs xyzt XYZs)

/-- The correction after `x_hat[3] /= c` (`least_squares.py` line 124). -/
def LS.x_hat_step (ext : Externals) (now : ℚ) (sats : List (String × NavRec))
    (P vmf_coeffs xyzt : List ℚ) (XYZs : List (List ℚ)) : List ℚ :=
  (LS.x_hat_raw ext now sats P vmf_coeffs xyzt XYZs).set 3
    ((LS.x_hat_raw ext now sats P vmf_coeffs xyzt XYZs).getD 3 0 / LS.c)

/-- The state update `xyzt += x_hat` (`least_squares.py` line 127; numpy
elementwise addition of the 4-vectors). -/
def LS.iterUpdate (ext : Externals) (now : ℚ) (sats : List (String × NavRec))
    (P vmf_coeffs xyzt : List ℚ) (XYZs : List (List ℚ)) : List ℚ :=
  List.zipWith (fun a b => a + b) xyzt (LS.x_hat_step ext now sats P vmf_coeffs xyzt XYZs)

/-- Outcome of the Gauss-Newton loop: final state `xyzt`, final satellite
positions, whether the `delta < threshold` break fired, and how many
iterations executed. -/
structure RunOut where
  xyzt : List ℚ
  XYZs : List (List ℚ)
  broke : Bool
  iters : Nat
deriving DecidableEq

/-- The Gauss-Newton loop of `least_squares.py` (lines 104–135),
`for itr in range(10)` with fuel as the remaining iteration budget:
compute the correction, add it to the state, break when
`delta = sqrt(sum(k**2 for k in x_hat[:3])) < 1.`, otherwise re-evaluate
the satellite positions at `now + x_hat[3]` and continue. -/
def LS.gnRun (ext : Externals) (now : ℚ) (sats : List (String × NavRec))
    (P vmf_coeffs : List ℚ) : Nat → List ℚ → List (List ℚ) → RunOut
  | 0, xyzt, XYZs => ⟨xyzt, XYZs, false, 0⟩
  | Nat.succ n, xyzt, XYZs =>
    if ext.sqrt ((((LS.x_hat_step ext now sats P vmf_coeffs xyzt XYZs).take 3).map
        (fun k => k ^ 2)).sum) < 1 then
      ⟨LS.iterUpdate ext now sats P vmf_coeffs xyzt XYZs, XYZs, true, 1⟩
    else
      let out := LS.gnRun ext now sats P vmf_coeffs n
        (LS.iterUpdate ext now sats P vmf_coeffs xyzt XYZs)
        (sats.map (fun s =>
          s.2.eph2pos (now + (LS.x_hat_step ext now sats P vmf_coeffs xyzt XYZs).getD 3 0)))
      ⟨out.xyzt, out.XYZs, out.broke, out.iters + 1⟩

/-- Everything of `least_squares.py`'s `least_squares` (lines 58–135) up to
and including the loop: filter the satellites, fail (`return None`, line 94)
when at most 3 qualify, otherwise build `P` from the C1 observable
(line 87), the satellite positions (line 89), the initial state (lines
100–102) and run the loop.  `none` also models the uncaught `ValueError`
from the ephemeris selector. -/
def LS.ls_solve (ext : Externals) (obs : Obs) (navs : String → List NavRec)
    (init_pos vmf_coeffs : List ℚ) : Option RunOut :=
  match collectSats nav_nearest_in_time ext obs.date LS.elev_mask init_pos obs navs
      obs.PRN_number with
  | none => none
  | some sats =>
    if sats.length > 3 then
      let P := sats.map (fun s => pyVal (obs.C1 s.1))
      let XYZs := sats.map (fun s => s.2.eph2pos obs.date)
      let xyzt := if init_pos ≠ [] then init_pos ++ [0] else [qtiny, qtiny, qtiny, 0]
      some (LS.gnRun ext obs.date sats P vmf_coeffs 10 xyzt XYZs)
    else none

/-- `least_squares.py`'s return value (line 145): `return xyzt[:3]`.  The
post-loop lines 137–144 only feed the dilution-of-precision printout and do
not affect the result. -/
def LS.least_squares (ext : Externals) (obs : Obs) (navs : String → List NavRec)
    (init_pos vmf_coeffs : List ℚ) : Option (List ℚ) :=
  (LS.ls_solve ext obs navs init_pos vmf_coeffs).map (fun r => r.xyzt.take 3)

/-- Residual vector of `rover_position.py` (lines 104–105): same as the
reference but without the tropospheric term. -/
def RP.l_vec (c now : ℚ) (sats : List (String × NavRec))
    (P rho xyzt : List ℚ) : List ℚ :=
  (List.range sats.length).map (fun i =>
    P.getD i 0 - rho.getD i 0
      + c * ((sats.getD i default).2.time_offset (now + xyzt.getD 3 0)))

/-- Solved correction of one `rover_position.py` iteration (lines 95–108). -/
def RP.x_hat_raw (ext : Externals) (now : ℚ) (sats : List (String × NavRec))
    (P xyzt : List ℚ) (XYZs : List (List ℚ)) : List ℚ :=
  let rho := rho_vec ext sats.length xyzt XYZs
  x_hat_of ext (A_mat RP.c sats.length xyzt XYZs rho)
    (RP.l_vec RP.c now sats P rho xyzt)

/-- The correction after `x_hat[3] /= c` (`rover_position.py` line 109). -/
def RP.x_hat_step (ext : Externals) (now : ℚ) (sats : List (String × NavRec))
    (P xyzt : List ℚ) (XYZs : List (List ℚ)) : List ℚ :=
  (RP.x_hat_raw ext now sats P xyzt XYZs).set 3
    ((RP.x_hat_raw ext now sats P xyzt XYZs).getD 3 0 / RP.c)

/-- The state update `xyzt += x_hat` (`rover_position.py` line 112). -/
def RP.iterUpdate (ext : Externals) (now : ℚ) (sats : List (String × NavRec))
    (P xyzt : List ℚ) (XYZs : List (List ℚ)) : List ℚ :=
  List.zipWith (fun a b => a + b) xyzt (RP.x_hat_step ext now sats P xyzt XYZs)

/-- The Gauss-Newton loop of `rover_position.py` (lines 91–118):
as the reference loop, but breaking on `delta < 10.`. -/
def RP.gnRun (ext : Externals) (now : ℚ) (sats : List (String × NavRec))
    (P : List ℚ) : Nat → List ℚ → List (List ℚ) → RunOut
  | 0, xyzt, XYZs => ⟨xyzt, XYZs, false, 0⟩
  | Nat.succ n, xyzt, XYZs =>
    if ext.sqrt ((((RP.x_hat_step ext now sats P xyzt XYZs).take 3).map
        (fun k => k ^ 2)).sum) < 10 then
      ⟨RP.iterUpdate ext now sats P xyzt XYZs, XYZs, true, 1⟩
    else
      let out := RP.gnRun ext now sats P n
        (RP.iterUpdate ext now sats P xyzt XYZs)
        (sats.map (fun s =>
          s.2.eph2pos (now + (RP.x_hat_step ext now sats P xyzt XYZs).getD 3 0)))
      ⟨out.xyzt, out.XYZs, out.broke, out.iters + 1⟩

/-- One pass of `rover_position.py`'s `least_squares` (lines 55–118) up to
and including the loop.  `filter_pos` is the value of `init_pos` seen by the
elevation mask and by the too-few-satellites branch; `xyzt0` is the initial
state.  With at most 3 satellites, both the `len(init_pos)` branch (line 83)
and the bad-measurement branch (line 86) `return None`.  Pseudoranges are
the external iono-free combination (line 75). -/
def RP.ls_run (ext : Externals) (obs : Obs) (navs : String → List NavRec)
    (filter_pos xyzt0 : List ℚ) : Option RunOut :=
  match collectSats RP.nav_nearest_in_time ext obs.date RP.elev_mask filter_pos obs navs
      obs.PRN_number with
  | none => none
  | some sats =>
    if sats.length > 3 then
      let P := sats.map (fun s => obs.ionofree_pseudorange s.1)
      let XYZs := sats.map (fun s => s.2.eph2pos obs.date)
      some (RP.gnRun ext obs.date sats P 10 xyzt0 XYZs)
    else none

/-- `rover_position.py`'s `least_squares` (lines 47–129).  When an a-priori
position is supplied the pass starts from `init_pos + [0.]` (list
concatenation) and returns the full final state `xyzt` (line 124).  With no
a-priori position it starts from the tiny default point and then retries
itself once, seeded with the first pass's final state (line 129); in that
recursive call `init_pos` is the final numpy 4-vector, so `init_pos + [0.]`
is a broadcast addition of zero that leaves it unchanged, and being
non-empty it returns after one pass.  (If the first pass could ever produce
an empty state the source would recurse forever; that unreachable case is
modelled as `none`.) -/
def RP.least_squares (ext : Externals) (obs : Obs) (navs : String → List NavRec)
    (init_pos : List ℚ) : Option (List ℚ) :=
  if init_pos ≠ [] then
    match RP.ls_run ext obs navs init_pos (init_pos ++ [0]) with
    | none => none
    | some r => some r.xyzt
  else
    match RP.ls_run ext obs navs init_pos [qtiny, qtiny, qtiny, 0] with
    | none => none
    | some r =>
      if r.xyzt ≠ [] then
        match RP.ls_run ext obs navs r.xyzt r.xyzt with
        | none => none
        | some r2 => some r2.xyzt
      else none

/-!
Concrete instances used by the witnesses below.  They plug degenerate but
well-typed collaborators into the model: a navigation record whose orbit
evaluator is constant, a 4×4 zero matrix standing for the (external) numpy
inverse, and square roots that make the computations exactly evaluable.
-/

/-- A navigation record at reference time 0 whose evaluators are constant. -/
def Ex.rec0 : NavRec :=
  { t_oe := 0, date := 0, utc2gps := fun t => t, eph2pos := fun _ => [0, 0, 0],
    time_offset := fun _ => 0 }

/-- A record whose reference time is two hours before epoch 0. -/
def Ex.recA : NavRec := { Ex.rec0 with t_oe := -7200 }

/-- A record whose reference time is one hour after epoch 0. -/
def Ex.recB : NavRec := { Ex.rec0 with t_oe := 3600 }

/-- The 4×4 zero matrix. -/
def Ex.zero4 : List (List ℚ) := List.replicate 4 (List.replicate 4 0)

/-- Observation epoch with five GPS satellites, `G07` missing its P2 cell. -/
def Ex.obsA : Obs :=
  { date := 0, PRN_number := ["G07", "G01", "G02", "G03", "G04"],
    C1 := fun _ => some 1,
    P2 := fun r => if r = "G07" then none else some 1,
    ionofree_pseudorange := fun _ => 1 }

/-- Observation epoch with only three qualifying satellites. -/
def Ex.obs3 : Obs :=
  { date := 0, PRN_number := ["G01", "G02", "G03"],
    C1 := fun _ => some 1, P2 := fun _ => some 1,
    ionofree_pseudorange := fun _ => 1 }

/-- Observation epoch with one satellite, used with an empty ephemeris
table. -/
def Ex.obsE : Obs :=
  { date := 0, PRN_number := ["G05"],
    C1 := fun _ => some 1, P2 := fun _ => some 1,
    ionofree_pseudorange := fun _ => 1 }

/-- Ephemeris table giving every satellite the single record `Ex.rec0`. -/
def Ex.navsA : String → List NavRec := fun _ => [Ex.rec0]

/-- Empty ephemeris table. -/
def Ex.navsE : String → List NavRec := fun _ => []

/-- Externals with identity square root and zero matrix inverse: every
correction solves to the zero vector and the loop converges immediately. -/
def Ex.extZero : Externals :=
  { sqrt := fun q => q, inv4 := fun _ => Ex.zero4,
    ecef_to_lat_lon_alt := fun _ _ => [0, 0, 0],
    sat_elev := fun _ _ _ => 5, tropmodel := fun _ _ _ => 0 }

/-- Externals with the constant square root 1: the correction still solves
to zero but `delta = 1` never meets the 1-metre threshold, so the loop
exhausts its budget. -/
def Ex.extOne : Externals :=
  { sqrt := fun _ => 1, inv4 := fun _ => Ex.zero4,
    ecef_to_lat_lon_alt := fun _ _ => [0, 0, 0],
    sat_elev := fun _ _ _ => 5, tropmodel := fun _ _ _ => 0 }

/-- Observation epoch with four GPS satellites, all cells present, P2 = 1. -/
def Ex.obsB1 : Obs :=
  { date := 0, PRN_number := ["G01", "G02", "G03", "G04"],
    C1 := fun _ => some 1, P2 := fun _ => some 1,
    ionofree_pseudorange := fun _ => 1 }

/-- As `Ex.obsB1` but with every P2 cell changed to 2. -/
def Ex.obsB2 : Obs :=
  { date := 0, PRN_number := ["G01", "G02", "G03", "G04"],
    C1 := fun _ => some 1, P2 := fun _ => some 2,
    ionofree_pseudorange := fun _ => 1 }

/-- Externals for the prototype threshold: a square root `q ↦ q / 10`
satisfying `sqrt q < 10 ↔ q < 100`, and the zero matrix inverse. -/
def Ex.extTen : Externals :=
  { sqrt := fun q => q / 10, inv4 := fun _ => Ex.zero4,
    ecef_to_lat_lon_alt := fun _ _ => [0, 0, 0],
    sat_elev := fun _ _ _ => 5, tropmodel := fun _ _ _ => 0 }

/-- The working set collected from `Ex.obsA` (G07 is dropped). -/
def Ex.sats4 : List (String × NavRec) :=
  [("G01", Ex.rec0), ("G02", Ex.rec0), ("G03", Ex.rec0), ("G04", Ex.rec0)]

/-- Satellite positions of the working set under `Ex.rec0`'s evaluator. -/
def Ex.xyzs4 : List (List ℚ) := [[0, 0, 0], [0, 0, 0], [0, 0, 0], [0, 0, 0]]

/-!
Helper lemmas about the list-level linear algebra and about Python's
`min`/`index` idiom, shared by several of the claim theorems below.
-/

theorem getD_range_map {α : Type} (f : ℕ → α) {n i : ℕ} (d : α) (h : i < n) :
    ((List.range n).map f).getD i d = f i := by
  rw [List.getD_eq_getElem?_getD, List.getElem?_map, List.getElem?_range h]
  rfl

theorem getD_map_nav {l : List NavRec} (f : NavRec → ℚ) {j : ℕ}
    (h : j < l.length) (d : NavRec) :
    (l.map f).getD j 0 = f (l.getD j d) := by
  rw [List.getD_eq_getElem?_getD, List.getElem?_map, List.getElem?_eq_getElem h,
    List.getD_eq_getElem?_getD, List.getElem?_eq_getElem h]
  rfl

theorem getD_mem_of_lt {α : Type} {l : List α} {j : ℕ} (h : j < l.length)
    (d : α) : l.getD j d ∈ l := by
  rw [List.getD_eq_getElem?_getD, List.getElem?_eq_getElem h, Option.getD_some]
  exact List.getElem_mem h

theorem foldl_min_le (as : List ℚ) (a : ℚ) :
    as.foldl min a ≤ a ∧ ∀ x ∈ as, as.foldl min a ≤ x := by
  induction as generalizing a with
  | nil => exact ⟨le_refl a, by simp⟩
  | cons b bs ih =>
    have h := ih (min a b)
    refine ⟨le_trans h.1 (min_le_left a b), ?_⟩
    intro x hx
    rcases List.mem_cons.1 hx with rfl | hx
    · exact le_trans h.1 (min_le_right a x)
    · exact h.2 x hx

theorem foldl_min_mem (as : List ℚ) (a : ℚ) : as.foldl min a ∈ a :: as := by
  induction as generalizing a with
  | nil => simp
  | cons b bs ih =>
    have h := ih (min a b)
    rcases List.mem_cons.1 h with he | hm
    · rcases min_choice a b with h1 | h1
      · rw [List.foldl_cons, he, h1]; exact List.mem_cons_self _ _
      · rw [List.foldl_cons, he, h1]
        exact List.mem_cons_of_mem _ (List.mem_cons_self _ _)
    · rw [List.foldl_cons]
      exact List.mem_cons_of_mem _ (List.mem_cons_of_mem _ hm)

theorem minQ_spec {l : List ℚ} {m : ℚ} (h : l.min? = some m) :
    m ∈ l ∧ ∀ x ∈ l, m ≤ x := by
  cases l with
  | nil => simp [List.min?] at h
  | cons a as =>
    have hm : as.foldl min a = m := by simpa [List.min?] using h
    subst hm
    exact ⟨foldl_min_mem as a, by
      intro x hx
      rcases List.mem_cons.1 hx with rfl | hx
      · exact (foldl_min_le as x).1
      · exact (foldl_min_le as a).2 x hx⟩

theorem minQ_isSome {l : List ℚ} (h : l ≠ []) : ∃ m, l.min? = some m := by
  cases l with
  | nil => exact absurd rfl h
  | cons a as => exact ⟨as.foldl min a, by simp [List.min?]⟩

theorem getD_indexOf {l : List ℚ} {m : ℚ} (h : m ∈ l) :
    l.getD (l.indexOf m) 0 = m := by
  induction l with
  | nil => simp at h
  | cons a as ih =>
    by_cases ha : a = m
    · have hbeq : (a == m) = true := by simpa using ha
      rw [List.indexOf_cons, hbeq, cond_true, List.getD_cons_zero]
      exact ha
    · have hm : m ∈ as := by
        rcases List.mem_cons.1 h with rfl | hx
        · exact absurd rfl ha
        · exact hx
      have hbeq : (a == m) = false := by simpa using ha
      rw [List.indexOf_cons, hbeq, cond_false, List.getD_cons_succ]
      exact ih hm

theorem getD_before_indexOf {l : List ℚ} {m : ℚ} :
    ∀ {j : ℕ}, j < l.indexOf m → l.getD j 0 ≠ m := by
  induction l with
  | nil => intro j hj; simp [List.indexOf] at hj
  | cons a as ih =>
    intro j hj
    by_cases ha : a = m
    · have hbeq : (a == m) = true := by simpa using ha
      rw [List.indexOf_cons, hbeq, cond_true] at hj
      exact absurd hj (Nat.not_lt_zero j)
    · have hbeq : (a == m) = false := by simpa using ha
      rw [List.indexOf_cons, hbeq, cond_false] at hj
      cases j with
      | zero => simpa using ha
      | succ k =>
        rw [List.getD_cons_succ]
        exact ih (by omega)

/-- Index of the first minimizer: Python's `lst[diff.index(min(diff))]`
idiom, abstracted over the difference function `f`. -/
theorem argminQ {l : List NavRec} (f : NavRec → ℚ) (hne : l ≠ []) :
    ∃ m, (l.map f).min? = some m ∧
      (l.map f).indexOf m < l.length ∧
      f (l.getD ((l.map f).indexOf m) default) = m ∧
      (∀ x ∈ l, m ≤ f x) ∧
      ∀ j < (l.map f).indexOf m, f (l.getD j default) ≠ m := by
  have hdne : l.map f ≠ [] := by
    cases l with
    | nil => exact absurd rfl hne
    | cons a as => simp
  obtain ⟨m, hmin⟩ := minQ_isSome hdne
  obtain ⟨hmem, hle⟩ := minQ_spec hmin
  have hidx : (l.map f).indexOf m < (l.map f).length := List.indexOf_lt_length.2 hmem
  have hinav : (l.map f).indexOf m < l.length := by simpa using hidx
  refine ⟨m, hmin, hinav, ?_, ?_, ?_⟩
  · rw [← getD_map_nav f hinav default]
    exact getD_indexOf hmem
  · intro x hx
    exact hle _ (List.mem_map.2 ⟨x, hx, rfl⟩)
  · intro j hj
    have hjn : j < l.length := lt_trans hj hinav
    rw [← getD_map_nav f hjn default]
    exact getD_before_indexOf hj

/-- C2: the claim says the solver's speed-of-light constant is exactly
299792458 m/s; both source files actually bind `c = 299792428` (line 66 of
`least_squares.py`, line 55 of `rover_position.py`) under the comment
"speed of light", a digit slip of 30 m/s against the physical constant the
comment and the spec intend. -/
theorem c2_constant_value :
    LS.c = 299792428 ∧ RP.c = 299792428 ∧ LS.c ≠ 299792458 := by
  refine ⟨rfl, rfl, ?_⟩
  decide

/-- C5: for a non-empty candidate list the selector of `least_squares.py`
returns a record of the list whose reference time minimizes the absolute
difference to the epoch, and it is the first record attaining that minimum
(every earlier record has a strictly larger difference); in particular with
records at T−2h and T+1h it picks the T+1h record. -/
theorem c5_nearest_ephemeris :
    (∀ (t : ℚ) (navs : List NavRec), navs ≠ [] →
      ∃ nnt, nav_nearest_in_time t navs = some nnt ∧ nnt ∈ navs ∧
        (∀ n ∈ navs, |nnt.t_oe - t| ≤ |n.t_oe - t|) ∧
        ∃ i, i < navs.length ∧ nnt = navs.getD i default ∧
          ∀ j < i, |nnt.t_oe - t| < |(navs.getD j default).t_oe - t|) ∧
    (∀ (T : ℚ) (r1 r2 : NavRec), r1.t_oe = T - 7200 → r2.t_oe = T + 3600 →
      nav_nearest_in_time T [r1, r2] = some r2) := by
  constructor
  · intro t navs hne
    obtain ⟨m, hmin, hidx, hval, hle, hfirst⟩ :=
      argminQ (fun n => |n.t_oe - t|) hne
    have hval' : |(navs.getD ((navs.map (fun n => |n.t_oe - t|)).indexOf m)
        default).t_oe - t| = m := hval
    generalize hI : (navs.map (fun n => |n.t_oe - t|)).indexOf m = I
      at hidx hval' hfirst
    refine ⟨navs.getD I default, ?_, ?_, ?_, I, hidx, rfl, ?_⟩
    · simp only [nav_nearest_in_time]
      rw [hmin]
      show some (navs.getD
        (List.indexOf m (List.map (fun n => |n.t_oe - t|) navs)) default) =
        some (navs.getD I default)
      rw [hI]
    · exact getD_mem_of_lt hidx default
    · intro n hn
      rw [hval']
      exact hle n hn
    · intro j hj
      have hne2 : |(navs.getD j default).t_oe - t| ≠ m := hfirst j hj
      have hge : m ≤ |(navs.getD j default).t_oe - t| :=
        hle _ (getD_mem_of_lt (lt_trans hj hidx) default)
      rw [hval']
      exact lt_of_le_of_ne hge (Ne.symm hne2)
  · intro T r1 r2 h1 h2
    have e1 : |r1.t_oe - T| = 7200 := by
      rw [h1]
      have : T - 7200 - T = -7200 := by ring
      rw [this, abs_neg, abs_of_nonneg (by norm_num)]
    have e2 : |r2.t_oe - T| = 3600 := by
      rw [h2]
      have : T + 3600 - T = 3600 := by ring
      rw [this, abs_of_nonneg (by norm_num)]
    rw [nav_nearest_in_time]
    simp only [List.map_cons, List.map_nil, e1, e2]
    have hmin : List.min? [(7200 : ℚ), 3600] = some 3600 := by
      simp [List.min?, min_def]
      norm_num
    rw [hmin]
    have hio : List.indexOf (3600 : ℚ) [7200, 3600] = 1 := by
      rw [List.indexOf_cons]
      have : ((7200 : ℚ) == 3600) = false := by decide
      rw [this]
      simp [List.indexOf_cons]
    show some (([r1, r2] : List NavRec).getD
      (List.indexOf (3600 : ℚ) [7200, 3600]) default) = some r2
    rw [hio]
    rfl

/-- C5 witness: the selector applied to the two-record list with reference
times −7200 and 3600 at epoch 0. -/
theorem c5_witness :
    (([Ex.recA, Ex.recB] : List NavRec) ≠ [] ∧
      ∃ nnt, nav_nearest_in_time 0 [Ex.recA, Ex.recB] = some nnt ∧
        nnt ∈ [Ex.recA, Ex.recB] ∧
        (∀ n ∈ [Ex.recA, Ex.recB], |nnt.t_oe - 0| ≤ |n.t_oe - 0|) ∧
        ∃ i, i < ([Ex.recA, Ex.recB] : List NavRec).length ∧
          nnt = ([Ex.recA, Ex.recB] : List NavRec).getD i default ∧
          ∀ j < i, |nnt.t_oe - 0| < |(([Ex.recA, Ex.recB] : List NavRec).getD j default).t_oe - 0|) ∧
    (Ex.recA.t_oe = 0 - 7200 ∧ Ex.recB.t_oe = 0 + 3600 ∧
      nav_nearest_in_time 0 [Ex.recA, Ex.recB] = some Ex.recB) := by
  have hA : Ex.recA.t_oe = 0 - 7200 := by
    show (-7200 : ℚ) = 0 - 7200
    norm_num
  have hB : Ex.recB.t_oe = 0 + 3600 := by
    show (3600 : ℚ) = 0 + 3600
    norm_num
  exact ⟨⟨by simp, c5_nearest_ephemeris.1 0 [Ex.recA, Ex.recB] (by simp)⟩,
    hA, hB, c5_nearest_ephemeris.2 0 Ex.recA Ex.recB hA hB⟩

/-- Helper for C9: if any satellite of the PRN list passes the data checks
but has an empty ephemeris candidate list, the selection loop fails. -/
theorem collectSats_none_of_empty_navs (ext : Externals)
    (now mask : ℚ) (init_pos : List ℚ) (obs : Obs)
    (navs : String → List NavRec) (r : String)
    (hC1 : pyTrue (obs.C1 r)) (hP2 : pyTrue (obs.P2 r)) (hG : 'G' ∈ r.toList)
    (hemp : navs r = []) :
    ∀ prns : List String, r ∈ prns →
      collectSats nav_nearest_in_time ext now mask init_pos obs navs prns = none := by
  intro prns hmem
  induction prns with
  | nil => simp at hmem
  | cons a rest ih =>
    rcases List.mem_cons.1 hmem with rfl | hmem2
    · rw [collectSats]
      have hstep : satStep nav_nearest_in_time ext now mask init_pos obs navs r = none := by
        rw [satStep, if_pos ⟨hC1, hP2, hG⟩, hemp]
        rfl
      rw [hstep]
    · rw [collectSats]
      cases hstep : satStep nav_nearest_in_time ext now mask init_pos obs navs a with
      | none => rfl
      | some o =>
        cases o with
        | none => exact ih hmem2
        | some e => rw [ih hmem2]; rfl

/-- C9: with an empty candidate record collection the ephemeris selector of
`least_squares.py` fails (Python's `min` raises on the empty list, modelled
as `none`), and for a satellite that has observations (present C1 and P2,
GPS constellation) but an empty ephemeris list the whole solve fails with
no estimate rather than returning a record. -/
theorem c9_no_ephemeris :
    (∀ t : ℚ, nav_nearest_in_time t [] = none) ∧
    (∀ (ext : Externals) (obs : Obs) (navs : String → List NavRec)
        (init_pos vmf_coeffs : List ℚ) (r : String),
      r ∈ obs.PRN_number → pyTrue (obs.C1 r) → pyTrue (obs.P2 r) →
      'G' ∈ r.toList → navs r = [] →
      LS.least_squares ext obs navs init_pos vmf_coeffs = none) := by
  constructor
  · intro t
    rfl
  · intro ext obs navs init_pos vmf_coeffs r hmem hC1 hP2 hG hemp
    have h := collectSats_none_of_empty_navs ext obs.date LS.elev_mask init_pos obs
      navs r hC1 hP2 hG hemp obs.PRN_number hmem
    rw [LS.least_squares, LS.ls_solve, h]
    rfl

/-- C9 witness: satellite `G05` has observations but the ephemeris table is
empty; the solve returns no estimate. -/
theorem c9_witness :
    ("G05" ∈ Ex.obsE.PRN_number ∧ pyTrue (Ex.obsE.C1 "G05") ∧
      pyTrue (Ex.obsE.P2 "G05") ∧ 'G' ∈ "G05".toList ∧ Ex.navsE "G05" = []) ∧
    LS.least_squares Ex.extZero Ex.obsE Ex.navsE [] [] = none := by
  have h1 : "G05" ∈ Ex.obsE.PRN_number := by simp [Ex.obsE]
  have h2 : pyTrue (Ex.obsE.C1 "G05") := by
    show pyTrue (some 1)
    simp [pyTrue]
  have h3 : pyTrue (Ex.obsE.P2 "G05") := by
    show pyTrue (some 1)
    simp [pyTrue]
  have h4 : 'G' ∈ "G05".toList := by decide
  have h5 : Ex.navsE "G05" = [] := rfl
  exact ⟨⟨h1, h2, h3, h4, h5⟩,
    c9_no_ephemeris.2 Ex.extZero Ex.obsE Ex.navsE [] [] "G05" h1 h2 h3 h4 h5⟩

theorem list_len4 {l : List ℚ} (h : l.length = 4) :
    ∃ a b c d, l = [a, b, c, d] := by
  cases l with
  | nil => simp at h
  | cons a l1 =>
    cases l1 with
    | nil => simp at h
    | cons b l2 =>
      cases l2 with
      | nil => simp at h
      | cons c l3 =>
        cases l3 with
        | nil => simp at h
        | cons d l4 =>
          cases l4 with
          | nil => exact ⟨a, b, c, d, rfl⟩
          | cons e l5 => simp at h

theorem x_hat_of_length (ext : Externals) (A : List (List ℚ)) (l : List ℚ)
    (hinv : ∀ M, (ext.inv4 M).length = 4) :
    (x_hat_of ext A l).length = 4 := by
  simp [x_hat_of, matVecL, matMulL, hinv]

/-- Singleton candidate lists make the selector deterministic; used by the
witnesses. -/
theorem nav_single (t : ℚ) (n : NavRec) :
    nav_nearest_in_time t [n] = some n := by
  simp [nav_nearest_in_time, List.min?, List.indexOf_cons]

/-- Unfolding of `satStep` when the data checks pass and the selector
succeeds. -/
theorem satStep_eq_of_sel (sel : ℚ → List NavRec → Option NavRec)
    (ext : Externals) (now mask : ℚ) (init_pos : List ℚ) (obs : Obs)
    (navs : String → List NavRec) (r : String) (nnt : NavRec)
    (hcond : pyTrue (obs.C1 r) ∧ pyTrue (obs.P2 r) ∧ 'G' ∈ r.toList)
    (hsel : sel now (navs r) = some nnt) :
    satStep sel ext now mask init_pos obs navs r =
      if init_pos ≠ [] then
        if ext.sat_elev init_pos (nnt.eph2pos now) true < mask then some none
        else some (some (r, nnt))
      else some (some (r, nnt)) := by
  rw [satStep, if_pos hcond, hsel]

/-- C1: in each Gauss-Newton iteration of the reference solver the state is
updated by elementwise addition of the solved correction: the three
position components are incremented by the first three components of `x̂`
and the clock bias by the fourth component after its division by `c`, all
four fields in one update of the 4-vector state. -/
theorem c1_update_unit (ext : Externals) (now : ℚ)
    (sats : List (String × NavRec)) (P vmf_coeffs xyzt : List ℚ)
    (XYZs : List (List ℚ)) (p0 p1 p2 b : ℚ)
    (hx : xyzt = [p0, p1, p2, b])
    (hinv : ∀ M, (ext.inv4 M).length = 4) :
    ∃ u0 u1 u2 u3,
      LS.x_hat_raw ext now sats P vmf_coeffs xyzt XYZs = [u0, u1, u2, u3] ∧
      LS.x_hat_step ext now sats P vmf_coeffs xyzt XYZs =
        [u0, u1, u2, u3 / LS.c] ∧
      LS.iterUpdate ext now sats P vmf_coeffs xyzt XYZs =
        [p0 + u0, p1 + u1, p2 + u2, b + u3 / LS.c] := by
  have hlen : (LS.x_hat_raw ext now sats P vmf_coeffs xyzt XYZs).length = 4 := by
    rw [LS.x_hat_raw]
    exact x_hat_of_length ext _ _ hinv
  obtain ⟨u0, u1, u2, u3, hu⟩ := list_len4 hlen
  refine ⟨u0, u1, u2, u3, hu, ?_, ?_⟩
  · rw [LS.x_hat_step, hu]
    rfl
  · rw [LS.iterUpdate, LS.x_hat_step, hu, hx]
    rfl

/-- C1 witness: the unit update at a concrete state with the zero-matrix
inverse collaborator. -/
theorem c1_witness :
    (([(0 : ℚ), 0, 0, 0] : List ℚ) = [0, 0, 0, 0] ∧
      ∀ M, (Ex.extZero.inv4 M).length = 4) ∧
    ∃ u0 u1 u2 u3,
      LS.x_hat_raw Ex.extZero 0 Ex.sats4 [] [] [0, 0, 0, 0] Ex.xyzs4 =
        [u0, u1, u2, u3] ∧
      LS.x_hat_step Ex.extZero 0 Ex.sats4 [] [] [0, 0, 0, 0] Ex.xyzs4 =
        [u0, u1, u2, u3 / LS.c] ∧
      LS.iterUpdate Ex.extZero 0 Ex.sats4 [] [] [0, 0, 0, 0] Ex.xyzs4 =
        [0 + u0, 0 + u1, 0 + u2, 0 + u3 / LS.c] :=
  ⟨⟨rfl, fun _ => rfl⟩,
    c1_update_unit Ex.extZero 0 Ex.sats4 [] [] [0, 0, 0, 0] Ex.xyzs4
      0 0 0 0 rfl (fun _ => rfl)⟩

/-- C3: entry `i` of the reference solver's residual vector equals the
observed C1 code range minus the geometric range from the current estimate
(the square root of the summed squared coordinate differences), plus `c`
times the satellite clock offset evaluated at the epoch shifted by the
current clock bias `xyzt[3]`, minus the tropospheric delay evaluated at the
satellite's elevation from the current position and at the receiver's
current geodetic coordinates. -/
theorem c3_residual_formula (ext : Externals) (now : ℚ)
    (sats : List (String × NavRec)) (P vmf_coeffs xyzt : List ℚ)
    (XYZs : List (List ℚ)) (i : ℕ) (hi : i < sats.length) :
    (LS.l_vec ext LS.c now sats P (rho_vec ext sats.length xyzt XYZs)
        vmf_coeffs xyzt XYZs).getD i 0 =
      P.getD i 0
        - ext.sqrt ((List.zipWith (fun x y => (x - y) ^ 2)
            (XYZs.getD i []) xyzt).sum)
        + LS.c * ((sats.getD i default).2.time_offset (now + xyzt.getD 3 0))
        - ext.tropmodel (ext.ecef_to_lat_lon_alt xyzt false)
            (ext.sat_elev (xyzt.take 3) (XYZs.getD i []) false) vmf_coeffs := by
  rw [LS.l_vec, getD_range_map _ _ hi, rho_vec, getD_range_map _ _ hi]

/-- C3 witness: the residual formula read off at the first satellite of the
concrete four-satellite configuration. -/
theorem c3_witness :
    0 < Ex.sats4.length ∧
    (LS.l_vec Ex.extZero LS.c 0 Ex.sats4 [1, 1, 1, 1]
        (rho_vec Ex.extZero Ex.sats4.length [0, 0, 0, 0] Ex.xyzs4)
        [] [0, 0, 0, 0] Ex.xyzs4).getD 0 0 =
      ([(1 : ℚ), 1, 1, 1] : List ℚ).getD 0 0
        - Ex.extZero.sqrt ((List.zipWith (fun x y => (x - y) ^ 2)
            (Ex.xyzs4.getD 0 []) [0, 0, 0, 0]).sum)
        + LS.c * ((Ex.sats4.getD 0 default).2.time_offset
            (0 + ([(0 : ℚ), 0, 0, 0] : List ℚ).getD 3 0))
        - Ex.extZero.tropmodel
            (Ex.extZero.ecef_to_lat_lon_alt [0, 0, 0, 0] false)
            (Ex.extZero.sat_elev (([(0 : ℚ), 0, 0, 0] : List ℚ).take 3)
              (Ex.xyzs4.getD 0 []) false) [] :=
  ⟨by decide,
    c3_residual_formula Ex.extZero 0 Ex.sats4 [1, 1, 1, 1] [] [0, 0, 0, 0]
      Ex.xyzs4 0 (by decide)⟩

/-- Helper for C4: one pass of the prototype solver also fails on at most
three satellites. -/
theorem rp_ls_run_none (ext : Externals) (obs : Obs)
    (navs : String → List NavRec) (filter_pos xyzt0 : List ℚ)
    (sats : List (String × NavRec))
    (hc : collectSats RP.nav_nearest_in_time ext obs.date RP.elev_mask
      filter_pos obs navs obs.PRN_number = some sats)
    (hlen : sats.length ≤ 3) :
    RP.ls_run ext obs navs filter_pos xyzt0 = none := by
  simp only [RP.ls_run, hc]
  rw [if_neg (by omega)]

/-- C4: if the satellite filter admits at most three satellites (in either
solver file), the solve returns `None` — no run result, the Gauss-Newton
loop is never entered, and no position estimate is produced. -/
theorem c4_insufficient_satellites :
    (∀ (ext : Externals) (obs : Obs) (navs : String → List NavRec)
        (init_pos vmf_coeffs : List ℚ) (sats : List (String × NavRec)),
      collectSats nav_nearest_in_time ext obs.date LS.elev_mask init_pos obs
          navs obs.PRN_number = some sats →
      sats.length ≤ 3 →
      LS.ls_solve ext obs navs init_pos vmf_coeffs = none ∧
      LS.least_squares ext obs navs init_pos vmf_coeffs = none) ∧
    (∀ (ext : Externals) (obs : Obs) (navs : String → List NavRec)
        (init_pos : List ℚ) (sats : List (String × NavRec)),
      collectSats RP.nav_nearest_in_time ext obs.date RP.elev_mask init_pos
          obs navs obs.PRN_number = some sats →
      sats.length ≤ 3 →
      (∀ xyzt0, RP.ls_run ext obs navs init_pos xyzt0 = none) ∧
      RP.least_squares ext obs navs init_pos = none) := by
  constructor
  · intro ext obs navs init_pos vmf_coeffs sats hc hlen
    have h1 : LS.ls_solve ext obs navs init_pos vmf_coeffs = none := by
      simp only [LS.ls_solve, hc]
      rw [if_neg (by omega)]
    refine ⟨h1, ?_⟩
    rw [LS.least_squares, h1]
    rfl
  · intro ext obs navs init_pos sats hc hlen
    refine ⟨fun xyzt0 => rp_ls_run_none ext obs navs init_pos xyzt0 sats hc hlen, ?_⟩
    by_cases hinit : init_pos ≠ []
    · rw [RP.least_squares, if_pos hinit,
        rp_ls_run_none ext obs navs init_pos _ sats hc hlen]
    · rw [RP.least_squares, if_neg hinit]
      have hinit2 : init_pos = [] := by
        by_contra hne
        exact hinit hne
      rw [← hinit2, rp_ls_run_none ext obs navs init_pos _ sats hc hlen]

/-- C4 witness: a three-satellite epoch; both solvers refuse to solve. -/
theorem c4_witness :
    (collectSats nav_nearest_in_time Ex.extZero Ex.obs3.date LS.elev_mask []
        Ex.obs3 Ex.navsA Ex.obs3.PRN_number =
      some [("G01", Ex.rec0), ("G02", Ex.rec0), ("G03", Ex.rec0)] ∧
      ([("G01", Ex.rec0), ("G02", Ex.rec0), ("G03", Ex.rec0)] :
        List (String × NavRec)).length ≤ 3) ∧
    LS.ls_solve Ex.extZero Ex.obs3 Ex.navsA [] [] = none ∧
    LS.least_squares Ex.extZero Ex.obs3 Ex.navsA [] [] = none := by
  have hsat : ∀ r : String, pyTrue (Ex.obs3.C1 r) ∧ pyTrue (Ex.obs3.P2 r) := by
    intro r
    constructor
    · show pyTrue (some 1)
      simp [pyTrue]
    · show pyTrue (some 1)
      simp [pyTrue]
  have hstep : ∀ r : String, 'G' ∈ r.toList →
      satStep nav_nearest_in_time Ex.extZero 0 LS.elev_mask [] Ex.obs3
        Ex.navsA r = some (some (r, Ex.rec0)) := by
    intro r hG
    rw [satStep_eq_of_sel nav_nearest_in_time Ex.extZero 0 LS.elev_mask []
      Ex.obs3 Ex.navsA r Ex.rec0 ⟨(hsat r).1, (hsat r).2, hG⟩
      (by rw [show Ex.navsA r = [Ex.rec0] from rfl, nav_single])]
    rw [if_neg (by simp)]
  have hc : collectSats nav_nearest_in_time Ex.extZero Ex.obs3.date LS.elev_mask []
      Ex.obs3 Ex.navsA Ex.obs3.PRN_number =
      some [("G01", Ex.rec0), ("G02", Ex.rec0), ("G03", Ex.rec0)] := by
    show collectSats nav_nearest_in_time Ex.extZero 0 LS.elev_mask []
      Ex.obs3 Ex.navsA ["G01", "G02", "G03"] = _
    rw [collectSats, hstep "G01" (by decide)]
    rw [collectSats, hstep "G02" (by decide)]
    rw [collectSats, hstep "G03" (by decide)]
    rfl
  have hlen : ([("G01", Ex.rec0), ("G02", Ex.rec0), ("G03", Ex.rec0)] :
      List (String × NavRec)).length ≤ 3 := by decide
  obtain ⟨h1, h2⟩ := c4_insufficient_satellites.1 Ex.extZero Ex.obs3 Ex.navsA
    [] [] [("G01", Ex.rec0), ("G02", Ex.rec0), ("G03", Ex.rec0)] hc hlen
  exact ⟨⟨hc, hlen⟩, h1, h2⟩

/-- C6: for a satellite that passes the data checks (C1 and P2 present,
GPS constellation) and resolves an ephemeris record, the elevation mask of
the shared filter loop behaves as follows: with an a-priori position the
satellite is rejected exactly when its elevation from that position is
strictly below the mask and admitted exactly otherwise; with no a-priori
position it is always admitted and no elevation is consulted. -/
theorem c6_elevation_mask (sel : ℚ → List NavRec → Option NavRec)
    (ext : Externals) (now mask : ℚ) (init_pos : List ℚ) (obs : Obs)
    (navs : String → List NavRec) (r : String) (nnt : NavRec)
    (hC1 : pyTrue (obs.C1 r)) (hP2 : pyTrue (obs.P2 r)) (hG : 'G' ∈ r.toList)
    (hsel : sel now (navs r) = some nnt) :
    (init_pos ≠ [] →
      (satStep sel ext now mask init_pos obs navs r = some none ↔
        ext.sat_elev init_pos (nnt.eph2pos now) true < mask) ∧
      (satStep sel ext now mask init_pos obs navs r = some (some (r, nnt)) ↔
        ¬ ext.sat_elev init_pos (nnt.eph2pos now) true < mask)) ∧
    satStep sel ext now mask [] obs navs r = some (some (r, nnt)) := by
  constructor
  · intro hinit
    rw [satStep_eq_of_sel sel ext now mask init_pos obs navs r nnt
      ⟨hC1, hP2, hG⟩ hsel]
    by_cases helev : ext.sat_elev init_pos (nnt.eph2pos now) true < mask
    · rw [if_pos hinit, if_pos helev]
      simp [helev]
    · rw [if_pos hinit, if_neg helev]
      simp [helev]
  · rw [satStep_eq_of_sel sel ext now mask [] obs navs r nnt
      ⟨hC1, hP2, hG⟩ hsel]
    rw [if_neg (by simp)]

/-- C6 witness: a satellite at 5° elevation is excluded under a 10° mask
when an a-priori position is supplied and kept when none is. -/
theorem c6_witness :
    (pyTrue (Ex.obsA.C1 "G01") ∧ pyTrue (Ex.obsA.P2 "G01") ∧
      'G' ∈ "G01".toList ∧
      nav_nearest_in_time 0 (Ex.navsA "G01") = some Ex.rec0 ∧
      ([(1 : ℚ), 1, 1] : List ℚ) ≠ []) ∧
    (satStep nav_nearest_in_time Ex.extZero 0 10 [1, 1, 1] Ex.obsA Ex.navsA
        "G01" = some none ↔
      Ex.extZero.sat_elev [1, 1, 1] (Ex.rec0.eph2pos 0) true < 10) ∧
    satStep nav_nearest_in_time Ex.extZero 0 10 [] Ex.obsA Ex.navsA "G01" =
      some (some ("G01", Ex.rec0)) := by
  have h1 : pyTrue (Ex.obsA.C1 "G01") := by
    show pyTrue (some 1)
    simp [pyTrue]
  have h2 : pyTrue (Ex.obsA.P2 "G01") := by
    show pyTrue (some 1)
    simp [pyTrue]
  have h3 : 'G' ∈ "G01".toList := by decide
  have h4 : nav_nearest_in_time 0 (Ex.navsA "G01") = some Ex.rec0 := by
    show nav_nearest_in_time 0 [Ex.rec0] = some Ex.rec0
    exact nav_single 0 Ex.rec0
  have h := c6_elevation_mask nav_nearest_in_time Ex.extZero 0 10 [1, 1, 1]
    Ex.obsA Ex.navsA "G01" Ex.rec0 h1 h2 h3 h4
  exact ⟨⟨h1, h2, h3, h4, by simp⟩, (h.1 (by simp)).1, h.2⟩

theorem dotL_replicate_zero : ∀ (m : ℕ) (v : List ℚ),
    dotL (List.replicate m 0) v = 0 := by
  intro m
  induction m with
  | zero => intro v; rfl
  | succ k ih =>
    intro v
    cases v with
    | nil => rfl
    | cons x xs =>
      simp only [dotL] at ih ⊢
      rw [List.replicate_succ, List.zipWith_cons_cons, List.sum_cons, ih xs,
        zero_mul, add_zero]

theorem x_hat_of_zero (ext : Externals) (h : ext.inv4 = fun _ => Ex.zero4)
    (A : List (List ℚ)) (l : List ℚ) : x_hat_of ext A l = [0, 0, 0, 0] := by
  simp only [x_hat_of, h, Ex.zero4, matMulL, matVecL, List.map_replicate,
    dotL_replicate_zero, List.map_const']
  rfl

theorem ls_x_hat_step_zero (ext : Externals) (h : ext.inv4 = fun _ => Ex.zero4)
    (now : ℚ) (sats : List (String × NavRec)) (P vmf_coeffs xyzt : List ℚ)
    (XYZs : List (List ℚ)) :
    LS.x_hat_step ext now sats P vmf_coeffs xyzt XYZs = [0, 0, 0, 0] := by
  simp only [LS.x_hat_step, LS.x_hat_raw, x_hat_of_zero ext h]
  rw [show ([(0 : ℚ), 0, 0, 0] : List ℚ).getD 3 0 = 0 from rfl, zero_div]
  rfl

theorem rp_x_hat_step_zero (ext : Externals) (h : ext.inv4 = fun _ => Ex.zero4)
    (now : ℚ) (sats : List (String × NavRec)) (P xyzt : List ℚ)
    (XYZs : List (List ℚ)) :
    RP.x_hat_step ext now sats P xyzt XYZs = [0, 0, 0, 0] := by
  simp only [RP.x_hat_step, RP.x_hat_raw, x_hat_of_zero ext h]
  rw [show ([(0 : ℚ), 0, 0, 0] : List ℚ).getD 3 0 = 0 from rfl, zero_div]
  rfl

/-- The selector of `rover_position.py` on a singleton candidate list. -/
theorem rp_nav_single (t : ℚ) (n : NavRec) :
    RP.nav_nearest_in_time t [n] = some n := by
  simp [RP.nav_nearest_in_time, List.min?, List.indexOf_cons]

theorem collectSats_obsA (ext : Externals) :
    collectSats nav_nearest_in_time ext Ex.obsA.date LS.elev_mask [] Ex.obsA
      Ex.navsA Ex.obsA.PRN_number = some Ex.sats4 := by
  have hkeep : ∀ r : String, r ≠ "G07" → 'G' ∈ r.toList →
      satStep nav_nearest_in_time ext 0 LS.elev_mask [] Ex.obsA Ex.navsA r =
        some (some (r, Ex.rec0)) := by
    intro r hne hG
    have hC1 : pyTrue (Ex.obsA.C1 r) := by
      show pyTrue (some 1)
      simp [pyTrue]
    have hP2 : pyTrue (Ex.obsA.P2 r) := by
      show pyTrue (if r = "G07" then none else some 1)
      rw [if_neg hne]
      simp [pyTrue]
    rw [satStep_eq_of_sel nav_nearest_in_time ext 0 LS.elev_mask [] Ex.obsA
      Ex.navsA r Ex.rec0 ⟨hC1, hP2, hG⟩ (nav_single 0 Ex.rec0)]
    rw [if_neg (by simp)]
  have hskip : satStep nav_nearest_in_time ext 0 LS.elev_mask [] Ex.obsA
      Ex.navsA "G07" = some none := by
    rw [satStep, if_neg]
    intro h
    have h2 : pyTrue (Ex.obsA.P2 "G07") := h.2.1
    rw [show Ex.obsA.P2 "G07" = none from rfl] at h2
    exact h2
  show collectSats nav_nearest_in_time ext 0 LS.elev_mask [] Ex.obsA Ex.navsA
    ["G07", "G01", "G02", "G03", "G04"] = some Ex.sats4
  rw [collectSats, hskip]
  rw [collectSats, hkeep "G01" (by decide) (by decide)]
  rw [collectSats, hkeep "G02" (by decide) (by decide)]
  rw [collectSats, hkeep "G03" (by decide) (by decide)]
  rw [collectSats, hkeep "G04" (by decide) (by decide)]
  rfl

theorem rp_collectSats_obsA (ext : Externals) :
    collectSats RP.nav_nearest_in_time ext Ex.obsA.date RP.elev_mask [] Ex.obsA
      Ex.navsA Ex.obsA.PRN_number = some Ex.sats4 := by
  have hkeep : ∀ r : String, r ≠ "G07" → 'G' ∈ r.toList →
      satStep RP.nav_nearest_in_time ext 0 RP.elev_mask [] Ex.obsA Ex.navsA r =
        some (some (r, Ex.rec0)) := by
    intro r hne hG
    have hC1 : pyTrue (Ex.obsA.C1 r) := by
      show pyTrue (some 1)
      simp [pyTrue]
    have hP2 : pyTrue (Ex.obsA.P2 r) := by
      show pyTrue (if r = "G07" then none else some 1)
      rw [if_neg hne]
      simp [pyTrue]
    rw [satStep_eq_of_sel RP.nav_nearest_in_time ext 0 RP.elev_mask [] Ex.obsA
      Ex.navsA r Ex.rec0 ⟨hC1, hP2, hG⟩ (rp_nav_single 0 Ex.rec0)]
    rw [if_neg (by simp)]
  have hskip : satStep RP.nav_nearest_in_time ext 0 RP.elev_mask [] Ex.obsA
      Ex.navsA "G07" = some none := by
    rw [satStep, if_neg]
    intro h
    have h2 : pyTrue (Ex.obsA.P2 "G07") := h.2.1
    rw [show Ex.obsA.P2 "G07" = none from rfl] at h2
    exact h2
  show collectSats RP.nav_nearest_in_time ext 0 RP.elev_mask [] Ex.obsA Ex.navsA
    ["G07", "G01", "G02", "G03", "G04"] = some Ex.sats4
  rw [collectSats, hskip]
  rw [collectSats, hkeep "G01" (by decide) (by decide)]
  rw [collectSats, hkeep "G02" (by decide) (by decide)]
  rw [collectSats, hkeep "G03" (by decide) (by decide)]
  rw [collectSats, hkeep "G04" (by decide) (by decide)]
  rfl

theorem gnRun_extZero_break (n : Nat) (P vmf_coeffs : List ℚ) :
    LS.gnRun Ex.extZero 0 Ex.sats4 P vmf_coeffs (n + 1)
        [qtiny, qtiny, qtiny, 0] Ex.xyzs4 =
      ⟨[qtiny, qtiny, qtiny, 0], Ex.xyzs4, true, 1⟩ := by
  rw [LS.gnRun]
  rw [ls_x_hat_step_zero Ex.extZero rfl]
  have hcond : Ex.extZero.sqrt
      ((((([(0 : ℚ), 0, 0, 0] : List ℚ)).take 3).map (fun k => k ^ 2)).sum) < 1 := by
    show (((([(0 : ℚ), 0, 0, 0] : List ℚ)).take 3).map (fun k => k ^ 2)).sum < 1
    simp
  rw [if_pos hcond]
  have hupd : LS.iterUpdate Ex.extZero 0 Ex.sats4 P vmf_coeffs
      [qtiny, qtiny, qtiny, 0] Ex.xyzs4 = [qtiny, qtiny, qtiny, 0] := by
    rw [LS.iterUpdate, ls_x_hat_step_zero Ex.extZero rfl]
    show List.zipWith (fun a b => a + b) [qtiny, qtiny, qtiny, 0]
      [0, 0, 0, 0] = [qtiny, qtiny, qtiny, 0]
    simp
  rw [hupd]

theorem gnRun_extOne_exhaust (P vmf_coeffs : List ℚ) : ∀ n : Nat,
    LS.gnRun Ex.extOne 0 Ex.sats4 P vmf_coeffs n
        [qtiny, qtiny, qtiny, 0] Ex.xyzs4 =
      ⟨[qtiny, qtiny, qtiny, 0], Ex.xyzs4, false, n⟩ := by
  intro n
  induction n with
  | zero => rfl
  | succ k ih =>
    rw [LS.gnRun]
    rw [ls_x_hat_step_zero Ex.extOne rfl]
    have hcond : ¬ Ex.extOne.sqrt
        ((((([(0 : ℚ), 0, 0, 0] : List ℚ)).take 3).map (fun k => k ^ 2)).sum) < 1 := by
      show ¬ (1 : ℚ) < 1
      exact lt_irrefl 1
    rw [if_neg hcond]
    have hupd : LS.iterUpdate Ex.extOne 0 Ex.sats4 P vmf_coeffs
        [qtiny, qtiny, qtiny, 0] Ex.xyzs4 = [qtiny, qtiny, qtiny, 0] := by
      rw [LS.iterUpdate, ls_x_hat_step_zero Ex.extOne rfl]
      show List.zipWith (fun a b => a + b) [qtiny, qtiny, qtiny, 0]
        [0, 0, 0, 0] = [qtiny, qtiny, qtiny, 0]
      simp
    have hXYZ : Ex.sats4.map (fun s =>
        s.2.eph2pos (0 + (([(0 : ℚ), 0, 0, 0] : List ℚ).getD 3 0))) =
        Ex.xyzs4 := rfl
    rw [hupd, hXYZ, ih]

theorem ls_solve_extZero_eval :
    LS.ls_solve Ex.extZero Ex.obsA Ex.navsA [] [] =
      some ⟨[qtiny, qtiny, qtiny, 0], Ex.xyzs4, true, 1⟩ := by
  simp only [LS.ls_solve, collectSats_obsA Ex.extZero]
  rw [if_pos (by decide : Ex.sats4.length > 3)]
  rw [show Ex.sats4.map (fun s => pyVal (Ex.obsA.C1 s.1)) = [1, 1, 1, 1] from rfl]
  rw [show Ex.sats4.map (fun s => s.2.eph2pos Ex.obsA.date) = Ex.xyzs4 from rfl]
  rw [show (if ([] : List ℚ) ≠ [] then ([] : List ℚ) ++ [0]
    else [qtiny, qtiny, qtiny, 0]) = [qtiny, qtiny, qtiny, 0] from rfl]
  rw [show Ex.obsA.date = (0 : ℚ) from rfl]
  rw [show (10 : Nat) = 9 + 1 from rfl]
  rw [gnRun_extZero_break 9 [1, 1, 1, 1] []]

theorem ls_solve_extOne_eval :
    LS.ls_solve Ex.extOne Ex.obsA Ex.navsA [] [] =
      some ⟨[qtiny, qtiny, qtiny, 0], Ex.xyzs4, false, 10⟩ := by
  simp only [LS.ls_solve, collectSats_obsA Ex.extOne]
  rw [if_pos (by decide : Ex.sats4.length > 3)]
  rw [show Ex.sats4.map (fun s => pyVal (Ex.obsA.C1 s.1)) = [1, 1, 1, 1] from rfl]
  rw [show Ex.sats4.map (fun s => s.2.eph2pos Ex.obsA.date) = Ex.xyzs4 from rfl]
  rw [show (if ([] : List ℚ) ≠ [] then ([] : List ℚ) ++ [0]
    else [qtiny, qtiny, qtiny, 0]) = [qtiny, qtiny, qtiny, 0] from rfl]
  rw [show Ex.obsA.date = (0 : ℚ) from rfl]
  rw [gnRun_extOne_exhaust [1, 1, 1, 1] [] 10]

theorem rp_gnRun_extZero_break (n : Nat) (P : List ℚ) :
    RP.gnRun Ex.extZero 0 Ex.sats4 P (n + 1)
        [qtiny, qtiny, qtiny, 0] Ex.xyzs4 =
      ⟨[qtiny, qtiny, qtiny, 0], Ex.xyzs4, true, 1⟩ := by
  rw [RP.gnRun]
  rw [rp_x_hat_step_zero Ex.extZero rfl]
  have hcond : Ex.extZero.sqrt
      ((((([(0 : ℚ), 0, 0, 0] : List ℚ)).take 3).map (fun k => k ^ 2)).sum) < 10 := by
    show (((([(0 : ℚ), 0, 0, 0] : List ℚ)).take 3).map (fun k => k ^ 2)).sum < 10
    norm_num
  rw [if_pos hcond]
  have hupd : RP.iterUpdate Ex.extZero 0 Ex.sats4 P
      [qtiny, qtiny, qtiny, 0] Ex.xyzs4 = [qtiny, qtiny, qtiny, 0] := by
    rw [RP.iterUpdate, rp_x_hat_step_zero Ex.extZero rfl]
    show List.zipWith (fun a b => a + b) [qtiny, qtiny, qtiny, 0]
      [0, 0, 0, 0] = [qtiny, qtiny, qtiny, 0]
    simp
  rw [hupd]

theorem rp_ls_run_eval :
    RP.ls_run Ex.extZero Ex.obsA Ex.navsA [] [qtiny, qtiny, qtiny, 0] =
      some ⟨[qtiny, qtiny, qtiny, 0], Ex.xyzs4, true, 1⟩ := by
  simp only [RP.ls_run, rp_collectSats_obsA Ex.extZero]
  rw [if_pos (by decide : Ex.sats4.length > 3)]
  rw [show Ex.sats4.map (fun s => Ex.obsA.ionofree_pseudorange s.1) =
    [1, 1, 1, 1] from rfl]
  rw [show Ex.sats4.map (fun s => s.2.eph2pos Ex.obsA.date) = Ex.xyzs4 from rfl]
  rw [show Ex.obsA.date = (0 : ℚ) from rfl]
  rw [show (10 : Nat) = 9 + 1 from rfl]
  rw [rp_gnRun_extZero_break 9 [1, 1, 1, 1]]

theorem ls_gnRun_iters_le (ext : Externals) (now : ℚ)
    (sats : List (String × NavRec)) (P vmf_coeffs : List ℚ) :
    ∀ (fuel : Nat) (xyzt : List ℚ) (XYZs : List (List ℚ)),
      (LS.gnRun ext now sats P vmf_coeffs fuel xyzt XYZs).iters ≤ fuel := by
  intro fuel
  induction fuel with
  | zero => intro xyzt XYZs; exact Nat.le_refl 0
  | succ k ih =>
    intro xyzt XYZs
    rw [LS.gnRun]
    split
    · show 1 ≤ k + 1
      omega
    · show (LS.gnRun ext now sats P vmf_coeffs k
        (LS.iterUpdate ext now sats P vmf_coeffs xyzt XYZs)
        (sats.map (fun s => s.2.eph2pos (now +
          (LS.x_hat_step ext now sats P vmf_coeffs xyzt XYZs).getD 3 0)))).iters
          + 1 ≤ k + 1
      exact Nat.succ_le_succ (ih _ _)

theorem ls_gnRun_iters_one (ext : Externals) (now : ℚ)
    (sats : List (String × NavRec)) (P vmf_coeffs : List ℚ) :
    ∀ (fuel : Nat) (xyzt : List ℚ) (XYZs : List (List ℚ)),
      (LS.gnRun ext now sats P vmf_coeffs fuel xyzt XYZs).iters = 0 →
      (LS.gnRun ext now sats P vmf_coeffs fuel xyzt XYZs).broke = false := by
  intro fuel
  cases fuel with
  | zero => intro xyzt XYZs _; rfl
  | succ k =>
    intro xyzt XYZs h
    rw [LS.gnRun] at h ⊢
    by_cases hc : ext.sqrt ((((LS.x_hat_step ext now sats P vmf_coeffs xyzt
        XYZs).take 3).map (fun k => k ^ 2)).sum) < 1
    · rw [if_pos hc] at h
      exact absurd h (by simp)
    · rw [if_neg hc] at h
      exact absurd h (by simp)

theorem ls_gnRun_first_iter (ext : Externals) (now : ℚ)
    (sats : List (String × NavRec)) (P vmf_coeffs : List ℚ) (n : Nat)
    (xyzt : List ℚ) (XYZs : List (List ℚ))
    (hsq : ∀ q : ℚ, 0 ≤ q → (ext.sqrt q < 1 ↔ q < 1)) :
    ((LS.gnRun ext now sats P vmf_coeffs (n + 1) xyzt XYZs).broke = true ∧
      (LS.gnRun ext now sats P vmf_coeffs (n + 1) xyzt XYZs).iters = 1) ↔
    (((LS.x_hat_step ext now sats P vmf_coeffs xyzt XYZs).take 3).map
      (fun k => k ^ 2)).sum < 1 := by
  have hS : 0 ≤ (((LS.x_hat_step ext now sats P vmf_coeffs xyzt XYZs).take 3).map
      (fun k => k ^ 2)).sum := by
    apply List.sum_nonneg
    intro x hx
    obtain ⟨k, hk, rfl⟩ := List.mem_map.1 hx
    positivity
  rw [LS.gnRun]
  by_cases hc : ext.sqrt ((((LS.x_hat_step ext now sats P vmf_coeffs xyzt
      XYZs).take 3).map (fun k => k ^ 2)).sum) < 1
  · rw [if_pos hc]
    constructor
    · intro _
      exact (hsq _ hS).1 hc
    · intro _
      exact ⟨rfl, rfl⟩
  · rw [if_neg hc]
    constructor
    · intro h
      exfalso
      have hb : (LS.gnRun ext now sats P vmf_coeffs n
          (LS.iterUpdate ext now sats P vmf_coeffs xyzt XYZs)
          (sats.map (fun s => s.2.eph2pos (now +
            (LS.x_hat_step ext now sats P vmf_coeffs xyzt XYZs).getD 3 0)))).broke
          = true := h.1
      have hi : (LS.gnRun ext now sats P vmf_coeffs n
          (LS.iterUpdate ext now sats P vmf_coeffs xyzt XYZs)
          (sats.map (fun s => s.2.eph2pos (now +
            (LS.x_hat_step ext now sats P vmf_coeffs xyzt XYZs).getD 3 0)))).iters
          + 1 = 1 := h.2
      have h0 : (LS.gnRun ext now sats P vmf_coeffs n
          (LS.iterUpdate ext now sats P vmf_coeffs xyzt XYZs)
          (sats.map (fun s => s.2.eph2pos (now +
            (LS.x_hat_step ext now sats P vmf_coeffs xyzt XYZs).getD 3 0)))).iters
          = 0 := by omega
      have hf := ls_gnRun_iters_one ext now sats P vmf_coeffs n _ _ h0
      rw [hf] at hb
      exact absurd hb (by simp)
    · intro hlt
      exact absurd ((hsq _ hS).2 hlt) hc

theorem rp_gnRun_iters_le (ext : Externals) (now : ℚ)
    (sats : List (String × NavRec)) (P : List ℚ) :
    ∀ (fuel : Nat) (xyzt : List ℚ) (XYZs : List (List ℚ)),
      (RP.gnRun ext now sats P fuel xyzt XYZs).iters ≤ fuel := by
  intro fuel
  induction fuel with
  | zero => intro xyzt XYZs; exact Nat.le_refl 0
  | succ k ih =>
    intro xyzt XYZs
    rw [RP.gnRun]
    split
    · show 1 ≤ k + 1
      omega
    · show (RP.gnRun ext now sats P k
        (RP.iterUpdate ext now sats P xyzt XYZs)
        (sats.map (fun s => s.2.eph2pos (now +
          (RP.x_hat_step ext now sats P xyzt XYZs).getD 3 0)))).iters
          + 1 ≤ k + 1
      exact Nat.succ_le_succ (ih _ _)

theorem rp_gnRun_iters_one (ext : Externals) (now : ℚ)
    (sats : List (String × NavRec)) (P : List ℚ) :
    ∀ (fuel : Nat) (xyzt : List ℚ) (XYZs : List (List ℚ)),
      (RP.gnRun ext now sats P fuel xyzt XYZs).iters = 0 →
      (RP.gnRun ext now sats P fuel xyzt XYZs).broke = false := by
  intro fuel
  cases fuel with
  | zero => intro xyzt XYZs _; rfl
  | succ k =>
    intro xyzt XYZs h
    rw [RP.gnRun] at h ⊢
    by_cases hc : ext.sqrt ((((RP.x_hat_step ext now sats P xyzt
        XYZs).take 3).map (fun k => k ^ 2)).sum) < 10
    · rw [if_pos hc] at h
      exact absurd h (by simp)
    · rw [if_neg hc] at h
      exact absurd h (by simp)

theorem rp_gnRun_first_iter (ext : Externals) (now : ℚ)
    (sats : List (String × NavRec)) (P : List ℚ) (n : Nat)
    (xyzt : List ℚ) (XYZs : List (List ℚ))
    (hsq : ∀ q : ℚ, 0 ≤ q → (ext.sqrt q < 10 ↔ q < 100)) :
    ((RP.gnRun ext now sats P (n + 1) xyzt XYZs).broke = true ∧
      (RP.gnRun ext now sats P (n + 1) xyzt XYZs).iters = 1) ↔
    (((RP.x_hat_step ext now sats P xyzt XYZs).take 3).map
      (fun k => k ^ 2)).sum < 100 := by
  have hS : 0 ≤ (((RP.x_hat_step ext now sats P xyzt XYZs).take 3).map
      (fun k => k ^ 2)).sum := by
    apply List.sum_nonneg
    intro x hx
    obtain ⟨k, hk, rfl⟩ := List.mem_map.1 hx
    positivity
  rw [RP.gnRun]
  by_cases hc : ext.sqrt ((((RP.x_hat_step ext now sats P xyzt
      XYZs).take 3).map (fun k => k ^ 2)).sum) < 10
  · rw [if_pos hc]
    constructor
    · intro _
      exact (hsq _ hS).1 hc
    · intro _
      exact ⟨rfl, rfl⟩
  · rw [if_neg hc]
    constructor
    · intro h
      exfalso
      have hb : (RP.gnRun ext now sats P n
          (RP.iterUpdate ext now sats P xyzt XYZs)
          (sats.map (fun s => s.2.eph2pos (now +
            (RP.x_hat_step ext now sats P xyzt XYZs).getD 3 0)))).broke
          = true := h.1
      have hi : (RP.gnRun ext now sats P n
          (RP.iterUpdate ext now sats P xyzt XYZs)
          (sats.map (fun s => s.2.eph2pos (now +
            (RP.x_hat_step ext now sats P xyzt XYZs).getD 3 0)))).iters
          + 1 = 1 := h.2
      have h0 : (RP.gnRun ext now sats P n
          (RP.iterUpdate ext now sats P xyzt XYZs)
          (sats.map (fun s => s.2.eph2pos (now +
            (RP.x_hat_step ext now sats P xyzt XYZs).getD 3 0)))).iters
          = 0 := by omega
      have hf := rp_gnRun_iters_one ext now sats P n _ _ h0
      rw [hf] at hb
      exact absurd hb (by simp)
    · intro hlt
      exact absurd ((hsq _ hS).2 hlt) hc

/-- C7: the Gauss-Newton loop of either solver executes at most 10
iterations on every input (the loop budget of `for itr in range(10)`), and
an iteration is the one that exits the loop early (`broke` with exactly one
iteration executed from its start state) exactly when the squared Euclidean
norm of the position part of the correction, `Σ x̂[0:3]²` — the clock-bias
component excluded — is below the squared threshold: 1 m in
`least_squares.py`, 10 m in `rover_position.py`.  The square-root
collaborator is only assumed to compare correctly against the threshold. -/
theorem c7_iteration_bound_convergence :
    (∀ (ext : Externals) (obs : Obs) (navs : String → List NavRec)
        (init_pos vmf_coeffs : List ℚ) (r : RunOut),
      LS.ls_solve ext obs navs init_pos vmf_coeffs = some r → r.iters ≤ 10) ∧
    (∀ (ext : Externals) (now : ℚ) (sats : List (String × NavRec))
        (P vmf_coeffs : List ℚ) (n : Nat) (xyzt : List ℚ)
        (XYZs : List (List ℚ)),
      (∀ q : ℚ, 0 ≤ q → (ext.sqrt q < 1 ↔ q < 1)) →
      (((LS.gnRun ext now sats P vmf_coeffs (n + 1) xyzt XYZs).broke = true ∧
        (LS.gnRun ext now sats P vmf_coeffs (n + 1) xyzt XYZs).iters = 1) ↔
        (((LS.x_hat_step ext now sats P vmf_coeffs xyzt XYZs).take 3).map
          (fun k => k ^ 2)).sum < 1)) ∧
    (∀ (ext : Externals) (obs : Obs) (navs : String → List NavRec)
        (filter_pos xyzt0 : List ℚ) (r : RunOut),
      RP.ls_run ext obs navs filter_pos xyzt0 = some r → r.iters ≤ 10) ∧
    (∀ (ext : Externals) (now : ℚ) (sats : List (String × NavRec))
        (P : List ℚ) (n : Nat) (xyzt : List ℚ) (XYZs : List (List ℚ)),
      (∀ q : ℚ, 0 ≤ q → (ext.sqrt q < 10 ↔ q < 100)) →
      (((RP.gnRun ext now sats P (n + 1) xyzt XYZs).broke = true ∧
        (RP.gnRun ext now sats P (n + 1) xyzt XYZs).iters = 1) ↔
        (((RP.x_hat_step ext now sats P xyzt XYZs).take 3).map
          (fun k => k ^ 2)).sum < 100)) := by
  refine ⟨?_, ?_, ?_, ?_⟩
  · intro ext obs navs init_pos vmf_coeffs r h
    cases hc : collectSats nav_nearest_in_time ext obs.date LS.elev_mask
        init_pos obs navs obs.PRN_number with
    | none =>
      simp only [LS.ls_solve, hc] at h
      exact absurd h (by simp)
    | some sats =>
      simp only [LS.ls_solve, hc] at h
      by_cases hlen : sats.length > 3
      · rw [if_pos hlen] at h
        have hr := Option.some.inj h
        rw [← hr]
        exact ls_gnRun_iters_le ext obs.date sats _ vmf_coeffs 10 _ _
      · rw [if_neg hlen] at h
        exact absurd h (by simp)
  · intro ext now sats P vmf_coeffs n xyzt XYZs hsq
    exact ls_gnRun_first_iter ext now sats P vmf_coeffs n xyzt XYZs hsq
  · intro ext obs navs filter_pos xyzt0 r h
    cases hc : collectSats RP.nav_nearest_in_time ext obs.date RP.elev_mask
        filter_pos obs navs obs.PRN_number with
    | none =>
      simp only [RP.ls_run, hc] at h
      exact absurd h (by simp)
    | some sats =>
      simp only [RP.ls_run, hc] at h
      by_cases hlen : sats.length > 3
      · rw [if_pos hlen] at h
        have hr := Option.some.inj h
        rw [← hr]
        exact rp_gnRun_iters_le ext obs.date sats _ 10 _ _
      · rw [if_neg hlen] at h
        exact absurd h (by simp)
  · intro ext now sats P n xyzt XYZs hsq
    exact rp_gnRun_first_iter ext now sats P n xyzt XYZs hsq

/-- C7 witness: a converging reference run (one iteration of the 10
allowed) and the break characterization at both thresholds, with concrete
square-root collaborators satisfying the comparison assumptions. -/
theorem c7_witness :
    (LS.ls_solve Ex.extZero Ex.obsA Ex.navsA [] [] =
        some ⟨[qtiny, qtiny, qtiny, 0], Ex.xyzs4, true, 1⟩ ∧
      (⟨[qtiny, qtiny, qtiny, 0], Ex.xyzs4, true, 1⟩ : RunOut).iters ≤ 10) ∧
    ((∀ q : ℚ, 0 ≤ q → (Ex.extZero.sqrt q < 1 ↔ q < 1)) ∧
      (((LS.gnRun Ex.extZero 0 Ex.sats4 [1, 1, 1, 1] [] (0 + 1)
          [qtiny, qtiny, qtiny, 0] Ex.xyzs4).broke = true ∧
        (LS.gnRun Ex.extZero 0 Ex.sats4 [1, 1, 1, 1] [] (0 + 1)
          [qtiny, qtiny, qtiny, 0] Ex.xyzs4).iters = 1) ↔
        (((LS.x_hat_step Ex.extZero 0 Ex.sats4 [1, 1, 1, 1] []
          [qtiny, qtiny, qtiny, 0] Ex.xyzs4).take 3).map
          (fun k => k ^ 2)).sum < 1)) ∧
    (RP.ls_run Ex.extZero Ex.obsA Ex.navsA [] [qtiny, qtiny, qtiny, 0] =
        some ⟨[qtiny, qtiny, qtiny, 0], Ex.xyzs4, true, 1⟩ ∧
      (⟨[qtiny, qtiny, qtiny, 0], Ex.xyzs4, true, 1⟩ : RunOut).iters ≤ 10) ∧
    ((∀ q : ℚ, 0 ≤ q → (Ex.extTen.sqrt q < 10 ↔ q < 100)) ∧
      (((RP.gnRun Ex.extTen 0 Ex.sats4 [1, 1, 1, 1] (0 + 1)
          [qtiny, qtiny, qtiny, 0] Ex.xyzs4).broke = true ∧
        (RP.gnRun Ex.extTen 0 Ex.sats4 [1, 1, 1, 1] (0 + 1)
          [qtiny, qtiny, qtiny, 0] Ex.xyzs4).iters = 1) ↔
        (((RP.x_hat_step Ex.extTen 0 Ex.sats4 [1, 1, 1, 1]
          [qtiny, qtiny, qtiny, 0] Ex.xyzs4).take 3).map
          (fun k => k ^ 2)).sum < 100)) := by
  have hsq1 : ∀ q : ℚ, 0 ≤ q → (Ex.extZero.sqrt q < 1 ↔ q < 1) :=
    fun q _ => Iff.rfl
  have hsq10 : ∀ q : ℚ, 0 ≤ q → (Ex.extTen.sqrt q < 10 ↔ q < 100) := by
    intro q _
    show q / 10 < 10 ↔ q < 100
    rw [div_lt_iff₀ (by norm_num : (0 : ℚ) < 10)]
    norm_num
  exact ⟨⟨ls_solve_extZero_eval,
      c7_iteration_bound_convergence.1 Ex.extZero Ex.obsA Ex.navsA [] [] _
        ls_solve_extZero_eval⟩,
    ⟨hsq1, c7_iteration_bound_convergence.2.1 Ex.extZero 0 Ex.sats4
      [1, 1, 1, 1] [] 0 [qtiny, qtiny, qtiny, 0] Ex.xyzs4 hsq1⟩,
    ⟨rp_ls_run_eval,
      c7_iteration_bound_convergence.2.2.1 Ex.extZero Ex.obsA Ex.navsA []
        [qtiny, qtiny, qtiny, 0] _ rp_ls_run_eval⟩,
    ⟨hsq10, c7_iteration_bound_convergence.2.2.2 Ex.extTen 0 Ex.sats4
      [1, 1, 1, 1] 0 [qtiny, qtiny, qtiny, 0] Ex.xyzs4 hsq10⟩⟩

/-- C8 counterexample: the claim also asserts that "the result tells the
caller that the solve did not formally converge"; it does not.  A run that
exhausts all 10 iterations without ever meeting the threshold
(`broke = false`, `iters = 10`) and a run that converges on its first
iteration (`broke = true`, `iters = 1`) return *identical* values from
`least_squares` — a bare position with no convergence indication — so the
returned result cannot tell the caller whether the solve converged. -/
theorem c8_counterexample :
    LS.ls_solve Ex.extOne Ex.obsA Ex.navsA [] [] =
      some ⟨[qtiny, qtiny, qtiny, 0], Ex.xyzs4, false, 10⟩ ∧
    LS.ls_solve Ex.extZero Ex.obsA Ex.navsA [] [] =
      some ⟨[qtiny, qtiny, qtiny, 0], Ex.xyzs4, true, 1⟩ ∧
    LS.least_squares Ex.extOne Ex.obsA Ex.navsA [] [] =
      LS.least_squares Ex.extZero Ex.obsA Ex.navsA [] [] := by
  refine ⟨ls_solve_extOne_eval, ls_solve_extZero_eval, ?_⟩
  rw [LS.least_squares, LS.least_squares, ls_solve_extOne_eval,
    ls_solve_extZero_eval]
  rfl

/-- C8 (amended): when the loop exhausts its budget without converging
(`broke = false`), the reference solver still surfaces the last position
estimate — it returns `some (xyzt[:3])`, not a failure — but that value
carries no convergence flag. -/
theorem c8_exhausted_returns_estimate (ext : Externals) (obs : Obs)
    (navs : String → List NavRec) (init_pos vmf_coeffs : List ℚ) (r : RunOut)
    (h : LS.ls_solve ext obs navs init_pos vmf_coeffs = some r)
    (_hb : r.broke = false) :
    LS.least_squares ext obs navs init_pos vmf_coeffs =
      some (r.xyzt.take 3) := by
  rw [LS.least_squares, h]
  rfl

/-- C8 witness: the exhausted run still returns its last estimate. -/
theorem c8_witness :
    LS.ls_solve Ex.extOne Ex.obsA Ex.navsA [] [] =
      some ⟨[qtiny, qtiny, qtiny, 0], Ex.xyzs4, false, 10⟩ ∧
    (⟨[qtiny, qtiny, qtiny, 0], Ex.xyzs4, false, 10⟩ : RunOut).broke = false ∧
    LS.least_squares Ex.extOne Ex.obsA Ex.navsA [] [] =
      some (([qtiny, qtiny, qtiny, 0] : List ℚ).take 3) :=
  ⟨ls_solve_extOne_eval, rfl,
    c8_exhausted_returns_estimate Ex.extOne Ex.obsA Ex.navsA [] [] _
      ls_solve_extOne_eval rfl⟩

/-- Replacing one observation table by another with the same epoch, PRN
list and C1 cells, and with P2 cells of the same truthiness, does not
change the per-satellite filter decision. -/
theorem satStep_congr (sel : ℚ → List NavRec → Option NavRec)
    (ext : Externals) (now mask : ℚ) (init_pos : List ℚ)
    (navs : String → List NavRec) (obs obs2 : Obs)
    (hC1 : obs.C1 = obs2.C1)
    (hP2 : ∀ r, pyTrue (obs.P2 r) ↔ pyTrue (obs2.P2 r)) (r : String) :
    satStep sel ext now mask init_pos obs navs r =
      satStep sel ext now mask init_pos obs2 navs r := by
  rw [satStep, satStep, hC1]
  by_cases h : pyTrue (obs2.C1 r) ∧ pyTrue (obs.P2 r) ∧ 'G' ∈ r.toList
  · rw [if_pos h, if_pos ⟨h.1, (hP2 r).1 h.2.1, h.2.2⟩]
  · rw [if_neg h, if_neg (fun h2 => h ⟨h2.1, (hP2 r).2 h2.2.1, h2.2.2⟩)]

theorem collectSats_congr (sel : ℚ → List NavRec → Option NavRec)
    (ext : Externals) (now mask : ℚ) (init_pos : List ℚ)
    (navs : String → List NavRec) (obs obs2 : Obs)
    (hC1 : obs.C1 = obs2.C1)
    (hP2 : ∀ r, pyTrue (obs.P2 r) ↔ pyTrue (obs2.P2 r)) :
    ∀ prns : List String,
      collectSats sel ext now mask init_pos obs navs prns =
        collectSats sel ext now mask init_pos obs2 navs prns := by
  intro prns
  induction prns with
  | nil => rfl
  | cons r rest ih =>
    rw [collectSats, collectSats,
      satStep_congr sel ext now mask init_pos navs obs obs2 hC1 hP2 r, ih]

/-- C10 (implicit): a satellite joins the working set only if its C1 and
its P2 cells are both truthy (present and non-zero) and its identifier
contains 'G'; yet the solution itself is built from C1 alone — replacing
the P2 table by any table of the same truthiness leaves the reference
solver's output unchanged — and a satellite with a valid C1 but missing P2
(here `G07`) is silently dropped while the solve still succeeds. -/
theorem c10_admission_requires_c1_p2 :
    (∀ (sel : ℚ → List NavRec → Option NavRec) (ext : Externals)
        (now mask : ℚ) (init_pos : List ℚ) (obs : Obs)
        (navs : String → List NavRec) (r : String) (e : String × NavRec),
      satStep sel ext now mask init_pos obs navs r = some (some e) →
      pyTrue (obs.C1 r) ∧ pyTrue (obs.P2 r) ∧ 'G' ∈ r.toList) ∧
    (∀ (ext : Externals) (obs obs2 : Obs) (navs : String → List NavRec)
        (init_pos vmf_coeffs : List ℚ),
      obs.date = obs2.date → obs.PRN_number = obs2.PRN_number →
      obs.C1 = obs2.C1 →
      (∀ r, pyTrue (obs.P2 r) ↔ pyTrue (obs2.P2 r)) →
      LS.least_squares ext obs navs init_pos vmf_coeffs =
        LS.least_squares ext obs2 navs init_pos vmf_coeffs) ∧
    (satStep nav_nearest_in_time Ex.extZero 0 LS.elev_mask [] Ex.obsA
        Ex.navsA "G07" = some none ∧
      pyTrue (Ex.obsA.C1 "G07") ∧ Ex.obsA.P2 "G07" = none ∧
      LS.least_squares Ex.extZero Ex.obsA Ex.navsA [] [] =
        some [qtiny, qtiny, qtiny]) := by
  refine ⟨?_, ?_, ?_, ?_, rfl, ?_⟩
  · intro sel ext now mask init_pos obs navs r e h
    by_cases hcond : pyTrue (obs.C1 r) ∧ pyTrue (obs.P2 r) ∧ 'G' ∈ r.toList
    · exact hcond
    · rw [satStep, if_neg hcond] at h
      exact absurd h (by simp)
  · intro ext obs obs2 navs init_pos vmf_coeffs hd hPRN hC1 hP2
    simp only [LS.least_squares, LS.ls_solve]
    rw [hd, hPRN, hC1,
      collectSats_congr nav_nearest_in_time ext obs2.date LS.elev_mask
        init_pos navs obs obs2 hC1 hP2 obs2.PRN_number]
  · rw [satStep, if_neg]
    intro h
    have h2 : pyTrue (Ex.obsA.P2 "G07") := h.2.1
    rw [show Ex.obsA.P2 "G07" = none from rfl] at h2
    exact h2
  · show pyTrue (some 1)
    simp [pyTrue]
  · rw [LS.least_squares, ls_solve_extZero_eval]
    rfl

/-- C10 witness: a satellite with all checks passing is admitted, and two
observation tables differing only in their (truthy) P2 values give the same
solution. -/
theorem c10_witness :
    (satStep nav_nearest_in_time Ex.extZero 0 LS.elev_mask [] Ex.obsA
        Ex.navsA "G01" = some (some ("G01", Ex.rec0)) ∧
      pyTrue (Ex.obsA.C1 "G01") ∧ pyTrue (Ex.obsA.P2 "G01") ∧
        'G' ∈ "G01".toList) ∧
    (Ex.obsB1.date = Ex.obsB2.date ∧
      Ex.obsB1.PRN_number = Ex.obsB2.PRN_number ∧
      Ex.obsB1.C1 = Ex.obsB2.C1 ∧
      (∀ r, pyTrue (Ex.obsB1.P2 r) ↔ pyTrue (Ex.obsB2.P2 r)) ∧
      LS.least_squares Ex.extZero Ex.obsB1 Ex.navsA [] [] =
        LS.least_squares Ex.extZero Ex.obsB2 Ex.navsA [] []) := by
  have hC1 : pyTrue (Ex.obsA.C1 "G01") := by
    show pyTrue (some 1)
    simp [pyTrue]
  have hP2 : pyTrue (Ex.obsA.P2 "G01") := by
    show pyTrue (some 1)
    simp [pyTrue]
  have hG : 'G' ∈ "G01".toList := by decide
  have hstep : satStep nav_nearest_in_time Ex.extZero 0 LS.elev_mask []
      Ex.obsA Ex.navsA "G01" = some (some ("G01", Ex.rec0)) := by
    rw [satStep_eq_of_sel nav_nearest_in_time Ex.extZero 0 LS.elev_mask []
      Ex.obsA Ex.navsA "G01" Ex.rec0 ⟨hC1, hP2, hG⟩ (nav_single 0 Ex.rec0)]
    rw [if_neg (by simp)]
  have hB : ∀ r, pyTrue (Ex.obsB1.P2 r) ↔ pyTrue (Ex.obsB2.P2 r) := by
    intro r
    show ((1 : ℚ) ≠ 0) ↔ ((2 : ℚ) ≠ 0)
    constructor
    · intro _
      norm_num
    · intro _
      norm_num
  exact ⟨⟨hstep,
      c10_admission_requires_c1_p2.1 nav_nearest_in_time Ex.extZero 0
        LS.elev_mask [] Ex.obsA Ex.navsA "G01" ("G01", Ex.rec0) hstep⟩,
    rfl, rfl, rfl, hB,
    c10_admission_requires_c1_p2.2.1 Ex.extZero Ex.obsB1 Ex.obsB2 Ex.navsA
      [] [] rfl rfl rfl hB⟩
